import Mathlib

set_option maxHeartbeats 1000000

/-!
Shallow embedding of the conversation-session engine of the
obsidian-chatgpt-plugin repository (src/main.ts), together with theorems
settling the specification claims about it.

Conventions of the embedding:
* TypeScript strings are Lean `String`s; chunk boundaries are modelled at
  character granularity (the `TextDecoder` handling of split UTF-8 code
  units is an external concern of the platform).
* JavaScript truthiness is modelled explicitly where the source relies on
  it (`jsOrString`, `jsNumTruthy`, empty-string checks).
* `JSON.parse` of a streaming frame is an external platform function; the
  streaming machinery is parameterised by `parse : String → Option SSEvent`
  returning the two fields the source reads (`delta`, `usage`), with
  `none` standing for a parse failure (which the source swallows).
* `JSON.stringify` of the message array (used only for the token estimate
  fallback) is modelled by `jsonStringifyMessages`, producing the standard
  serialization of an array of two-field objects.
* The side effect `this.settings.usageHistory.push(record)` performed by
  `recordUsage` is modelled by the list of `UsageRecord`s returned by each
  embedded call; `new Date().toISOString()` is the explicit `now` argument.
* Network transports are explicit inputs: an `ApiResponse` value for the
  single-shot call, and a `Transport` value (HTTP failure, or a list of
  delivered chunks possibly followed by a read error) for streaming.
-/

/-- Characters treated as whitespace by the model of JavaScript
`String.prototype.trim` (space, tab, line feed, carriage return). -/
def isJsWhitespace (c : Char) : Bool :=
  c == ' ' || c == '\t' || c == '\n' || c == '\r'

/-- Model of JavaScript `s.trim()`: drop leading and trailing whitespace. -/
def jsTrim (s : String) : String :=
  ⟨((s.data.dropWhile isJsWhitespace).reverse.dropWhile isJsWhitespace).reverse⟩

/-- Model of the JavaScript idiom `v || fallback` for an optional string:
`undefined` and the empty string are falsy. -/
def jsOrString (v : Option String) (fallback : String) : String :=
  match v with
  | some s => if s = "" then fallback else s
  | none => fallback

/-- Model of JavaScript numeric truthiness for an optional count:
`undefined` and `0` are falsy. -/
def jsNumTruthy : Option Nat → Option Nat
  | some n => if n = 0 then none else some n
  | none => none

/-- Model of `a || b || 0` on optional token counts, as used on the
`usage` object in `src/main.ts` (e.g. `usage.prompt_tokens ||
usage.input_tokens || 0`). -/
def tokensOf (a b : Option Nat) : Nat :=
  match jsNumTruthy a with
  | some n => n
  | none =>
    match jsNumTruthy b with
    | some m => m
    | none => 0

/-- Concatenation of a list of strings in order (the reference
"concatenate the deltas in delivery order" operation). -/
def concatAll : List String → String
  | [] => ""
  | s :: rest => s ++ concatAll rest

/-- Display-view roles: the `ChatMessage` interface of `src/main.ts`
restricts `role` to the union type `'user' | 'assistant'`. -/
inductive Role where
  | user
  | assistant
  deriving DecidableEq

/-- The wire string corresponding to a display role. -/
def roleToString : Role → String
  | Role.user => "user"
  | Role.assistant => "assistant"

/-- A display-view entry (`ChatMessage` in `src/main.ts`). -/
structure ChatMessage where
  role : Role
  content : String
  deriving DecidableEq

/-- A wire-view entry (`{role: string, content: string}` in
`src/main.ts`). -/
structure WireMessage where
  role : String
  content : String
  deriving DecidableEq

/-- The wire-view image of a display entry. -/
def chatToWire (m : ChatMessage) : WireMessage :=
  ⟨roleToString m.role, m.content⟩

/-- The static per-model price table of `ChatGPTPlugin.calculateCost`
(USD per million tokens, input and output rates). -/
def pricingTable : List (String × ℚ × ℚ) :=
  [("gpt-5.2", 1.75, 7.00),
   ("gpt-5.1", 1.25, 5.00),
   ("gpt-5", 1.00, 4.00),
   ("gpt-5-mini", 0.25, 1.00),
   ("gpt-5-nano", 0.10, 0.40),
   ("gpt-4o", 2.50, 10.00),
   ("gpt-4o-mini", 0.150, 0.600),
   ("gpt-4-turbo", 10.00, 30.00),
   ("gpt-4", 30.00, 60.00),
   ("gpt-3.5-turbo", 0.50, 1.50)]

/-- `ChatGPTPlugin.calculateCost` from `src/main.ts`: look the model up in
the price table, falling back to the `gpt-4o` entry
(`pricing[model] || pricing['gpt-4o']`), and charge per million tokens.
Costs are modelled in `ℚ`; every arithmetic step of the source
(division by 1,000,000 and multiplication by a two-decimal rate) is exact
in binary floating point for the token counts of interest. -/
def calculateCost (model : String) (promptTokens completionTokens : Nat) : ℚ :=
  let modelPricing := (pricingTable.lookup model).getD
    ((pricingTable.lookup "gpt-4o").getD (0, 0))
  ((promptTokens : ℚ) / 1000000) * modelPricing.1 +
    ((completionTokens : ℚ) / 1000000) * modelPricing.2

/-- A persisted usage-accounting entry (`UsageRecord` in `src/main.ts`). -/
structure UsageRecord where
  date : String
  model : String
  promptTokens : Nat
  completionTokens : Nat
  totalTokens : Nat
  estimatedCost : ℚ
  deriving DecidableEq

/-- `ChatGPTPlugin.recordUsage` from `src/main.ts`: build the record that
is pushed onto `settings.usageHistory` (`new Date().toISOString()` is the
explicit `now` argument). -/
def recordUsage (model now : String) (promptTokens completionTokens : Nat) : UsageRecord :=
  { date := now
    model := model
    promptTokens := promptTokens
    completionTokens := completionTokens
    totalTokens := promptTokens + completionTokens
    estimatedCost := calculateCost model promptTokens completionTokens }

/-- One item of a non-streaming response content list
(`contentItem` in `src/main.ts`; `text` is absent or a string). -/
structure ContentItem where
  type : String
  text : Option String
  deriving DecidableEq

/-- One item of a non-streaming response output list
(`outputItem` in `src/main.ts`). -/
structure OutputItem where
  type : String
  content : Option (List ContentItem)
  deriving DecidableEq

/-- The remote error object (`data.error` in `src/main.ts`). -/
structure ErrorObj where
  message : Option String
  deriving DecidableEq

/-- The token-usage object of a response (`data.usage`); each field is
absent or a count. -/
structure UsageInfo where
  prompt_tokens : Option Nat
  input_tokens : Option Nat
  completion_tokens : Option Nat
  output_tokens : Option Nat
  deriving DecidableEq

/-- The parsed JSON body of a non-streaming Responses-API reply
(`data = response.json` in `callOpenAIWithHistory`). -/
structure ApiResponse where
  error : Option ErrorObj
  usage : Option UsageInfo
  output_text : Option String
  output : Option (List OutputItem)
  deriving DecidableEq

/-- The inner loop of the answer extraction in `callOpenAIWithHistory`:
`if (contentItem.type === "output_text" && contentItem.text) return
contentItem.text...` over the content list (empty string is falsy). -/
def firstTextOfContent : List ContentItem → Option String
  | [] => none
  | c :: rest =>
    if c.type = "output_text" then
      match c.text with
      | some t => if t = "" then firstTextOfContent rest else some t
      | none => firstTextOfContent rest
    else firstTextOfContent rest

/-- The outer loop of the answer extraction in `callOpenAIWithHistory`:
scan output items of type `"message"` with a non-empty content list and
return the first text-bearing content block. -/
def firstTextOfOutput : List OutputItem → Option String
  | [] => none
  | o :: rest =>
    if o.type = "message" then
      match o.content with
      | some items =>
        if items.length > 0 then
          match firstTextOfContent items with
          | some t => some t
          | none => firstTextOfOutput rest
        else firstTextOfOutput rest
      | none => firstTextOfOutput rest
    else firstTextOfOutput rest

/-- Answer-text extraction of `callOpenAIWithHistory` (and `callOpenAI`):
prefer a truthy `data.output_text`, otherwise search
`data.output` when it is present and non-empty.  The `.trim()` that the
source applies at each `return` site is applied once by the caller. -/
def extractAnswer (resp : ApiResponse) : Option String :=
  let fromOutput : Option String :=
    match resp.output with
    | some items => if items.length > 0 then firstTextOfOutput items else none
    | none => none
  match resp.output_text with
  | some t => if t = "" then fromOutput else some t
  | none => fromOutput

/-- `ChatGPTPlugin.callOpenAIWithHistory` from `src/main.ts` (single-shot
mode), as a function of the parsed response body.  Returns the result
(`Except.error` models a thrown exception) together with the list of
Usage Records appended during the call.  Mirrors the source order:
remote-reported error first, then usage recording, then text
extraction. -/
def callOpenAIWithHistory (model now : String) (resp : ApiResponse) :
    Except String String × List UsageRecord :=
  match resp.error with
  | some e => (Except.error (jsOrString e.message "OpenAI API Error"), [])
  | none =>
    let recs : List UsageRecord :=
      match resp.usage with
      | some u =>
        [recordUsage model now (tokensOf u.prompt_tokens u.input_tokens)
          (tokensOf u.completion_tokens u.output_tokens)]
      | none => []
    match extractAnswer resp with
    | some t => (Except.ok (jsTrim t), recs)
    | none => (Except.error "No response from ChatGPT", recs)

/-- One rendered transcript line of `handleInsertAndClose`: the 1-based
question number is `Math.floor(index / 2) + 1`, user entries are labelled
`Q`, assistant entries `A`. -/
def renderEntry (p : Nat × ChatMessage) : String :=
  let questionNum := p.1 / 2 + 1
  match p.2.role with
  | Role.user => "**==Q" ++ toString questionNum ++ ":==** " ++ p.2.content ++ "\n\n"
  | Role.assistant => "**==A" ++ toString questionNum ++ ":==** " ++ p.2.content ++ "\n\n"

/-- The `conversationText` block built by
`InteractiveChatModal.handleInsertAndClose`: the context header followed
by each display entry rendered with `renderEntry` (the source builds it
with `forEach((msg, index) => ...)` string appends). -/
def conversationText (selectedText : String) (displayMessages : List ChatMessage) : String :=
  "\n\n---\n\n**Selected Context:**\n" ++ selectedText ++
    "\n\n**ChatGPT Conversation:**\n\n" ++
    concatAll (displayMessages.enum.map renderEntry)

/-- The two fields of a streaming data frame that
`callOpenAIWithHistoryStreaming` reads out of `JSON.parse(jsonStr)`:
the source tests `data.delta !== undefined` (so an empty-string delta
still counts) and the truthiness of `data.usage`. -/
structure SSEvent where
  delta : Option String
  usage : Option UsageInfo
  deriving DecidableEq

/-- The accumulator of the streaming read loop, minus the line buffer:
`fullText`, the deltas delivered to the sink (`onChunk`) in order, and
the last captured `usageData`. -/
structure StreamCore where
  fullText : String
  deltas : List String
  usageData : Option UsageInfo
  deriving DecidableEq

/-- The empty streaming accumulator. -/
def initCore : StreamCore := { fullText := "", deltas := [], usageData := none }

/-- Model of `buffer.split('\n')` followed by `buffer = lines.pop()`:
returns the complete (newline-terminated) segments in order, and the
trailing segment after the last newline (the new buffer). -/
def splitNl : List Char → List (List Char) × List Char
  | [] => ([], [])
  | c :: rest =>
    let p := splitNl rest
    if c = '\n' then ([] :: p.1, p.2)
    else
      match p.1 with
      | [] => ([], c :: p.2)
      | l :: ls => ((c :: l) :: ls, p.2)

/-- Whether the first list is a leading segment of the second
(structural model of JavaScript `String.prototype.startsWith`). -/
def charsPrefix : List Char → List Char → Bool
  | [], _ => true
  | _ :: _, [] => false
  | p :: ps, c :: cs => p == c && charsPrefix ps cs

/-- Model of JavaScript `s.startsWith(p)`. -/
def jsStartsWith (s p : String) : Bool := charsPrefix p.data s.data

/-- Processing of one complete line by the streaming loop of
`callOpenAIWithHistoryStreaming`: skip blanks and `data: [DONE]`, skip
`event:` lines and lines without the `data: ` framing, ignore frames the
parse function rejects (the source swallows `JSON.parse` errors), append
a present `delta` to the accumulator and the sink, and capture a present
`usage`. -/
def processLine (parse : String → Option SSEvent) (core : StreamCore)
    (line : List Char) : StreamCore :=
  let s : String := ⟨line⟩
  if jsTrim s = "" ∨ jsTrim s = "data: [DONE]" then core
  else if jsStartsWith s "event:" then core
  else if !(jsStartsWith s "data: ") then core
  else
    match parse ⟨line.drop 6⟩ with
    | none => core
    | some ev =>
      let c1 : StreamCore :=
        match ev.delta with
        | some d =>
          { core with fullText := core.fullText ++ d, deltas := core.deltas ++ [d] }
        | none => core
      match ev.usage with
      | some u => { c1 with usageData := some u }
      | none => c1

/-- One iteration of the `while` loop of `callOpenAIWithHistoryStreaming`
on a decoded transport chunk: extend the buffer, split on newlines, keep
the trailing partial line as the new buffer, and process each complete
line in order.  The state is (line buffer, accumulator). -/
def chunkStep (parse : String → Option SSEvent)
    (s : List Char × StreamCore) (chunk : List Char) : List Char × StreamCore :=
  let p := splitNl (s.1 ++ chunk)
  (p.2, p.1.foldl (processLine parse) s.2)

/-- Character-at-a-time reformulation of the same loop, used to prove
that chunk boundaries are unobservable: a newline flushes the buffer
through `processLine`, any other character extends the buffer. -/
def charStep (parse : String → Option SSEvent)
    (s : List Char × StreamCore) (c : Char) : List Char × StreamCore :=
  if c = '\n' then ([], processLine parse s.2 s.1) else (s.1 ++ [c], s.2)

/-- The whole streaming read loop over a list of transport chunks,
starting from an empty buffer and accumulator.  As in the source, a
trailing partial line left in the buffer when the stream ends is
discarded. -/
def processChunks (parse : String → Option SSEvent) (chunks : List String) : StreamCore :=
  (chunks.foldl (fun s c => chunkStep parse s c.data) ([], initCore)).2

/-- The streaming transport as seen by `callOpenAIWithHistoryStreaming`:
either the `fetch` resolved with a non-ok status (carrying the optional
`errorData.error?.message`), or a sequence of chunks was delivered,
optionally cut short by a read error thrown by `reader.read()`. -/
inductive Transport where
  | httpError (msg : Option String)
  | stream (chunks : List String) (readError : Option String)

/-- Whether the streaming transport completes without throwing. -/
def streamSucceeds : Transport → Bool
  | Transport.stream _ none => true
  | _ => false

/-- The value resolved by a successful `callOpenAIWithHistoryStreaming`
(`{ fullText, usage }` in the source). -/
structure StreamOutcome where
  fullText : String
  usage : Option UsageInfo
  deriving DecidableEq

/-- JSON string escaping for one character, as performed by
`JSON.stringify` on the common characters appearing in chat messages. -/
def jsonEscapeChar (c : Char) : List Char :=
  if c = '"' ∨ c = '\\' then ['\\', c]
  else if c = '\n' then ['\\', 'n']
  else if c = '\t' then ['\\', 't']
  else if c = '\r' then ['\\', 'r']
  else [c]

/-- JSON string escaping of a whole string. -/
def jsonEscape (s : String) : String := ⟨(s.data.map jsonEscapeChar).flatten⟩

/-- `JSON.stringify` of one `{role, content}` message object. -/
def jsonStringifyMessage (m : WireMessage) : String :=
  "\x7b\"role\":\"" ++ jsonEscape m.role ++ "\",\"content\":\"" ++
    jsonEscape m.content ++ "\"\x7d"

/-- `JSON.stringify(messages)` for the wire-view message array, used by
the token-estimate fallback of `callOpenAIWithHistoryStreaming`. -/
def jsonStringifyMessages (ms : List WireMessage) : String :=
  "[" ++ String.intercalate "," (ms.map jsonStringifyMessage) ++ "]"

/-- `ChatGPTPlugin.callOpenAIWithHistoryStreaming` from `src/main.ts`, as
a function of the transport.  Returns the result (`Except.error` models a
thrown exception), the Usage Records appended during the call, and the
deltas delivered to the caller-supplied sink in delivery order.  On a
non-ok HTTP status the call throws before any sink invocation; on a read
error the chunks already delivered have been processed but nothing is
recorded; on completion exactly one record is appended, from the usage
event if one arrived and otherwise from the `Math.ceil(length / 4)`
character estimate. -/
def callOpenAIWithHistoryStreaming (parse : String → Option SSEvent)
    (model now : String) (messages : List WireMessage) (t : Transport) :
    Except String StreamOutcome × List UsageRecord × List String :=
  match t with
  | Transport.httpError msg => (Except.error (jsOrString msg "OpenAI API Error"), [], [])
  | Transport.stream chunks readError =>
    let core := processChunks parse chunks
    match readError with
    | some e => (Except.error e, [], core.deltas)
    | none =>
      let recs : List UsageRecord :=
        match core.usageData with
        | some u =>
          [recordUsage model now (tokensOf u.prompt_tokens u.input_tokens)
            (tokensOf u.completion_tokens u.output_tokens)]
        | none =>
          [recordUsage model now (((jsonStringifyMessages messages).length + 3) / 4)
            ((core.fullText.length + 3) / 4)]
      (Except.ok { fullText := core.fullText, usage := core.usageData }, recs, core.deltas)

/-- The observable state of one `InteractiveChatModal` session: the wire
view, the display view, the loading flag, the input surface, and a count
of requests issued to the completion client. -/
structure ModalState where
  messages : List WireMessage
  displayMessages : List ChatMessage
  isLoading : Bool
  inputValue : String
  requestsIssued : Nat
  deriving DecidableEq

/-- The `InteractiveChatModal` constructor: seed the wire view with the
system prompt and the delimited selected-context block; the display view
starts empty, no turn is in flight. -/
def mkModal (systemPrompt selectedText : String) : ModalState :=
  { messages :=
      [⟨"system", systemPrompt⟩,
       ⟨"system", "Selected context from the document:\n\n" ++ selectedText⟩]
    displayMessages := []
    isLoading := false
    inputValue := ""
    requestsIssued := 0 }

/-- The synchronous prefix of `InteractiveChatModal.handleSend`, up to the
point where the streaming request is issued: guard on empty input or a
turn already in flight (`if (!userInput || this.isLoading) return`), push
the user entry on both views, clear the input, enter the loading state,
and pre-append the empty assistant display entry at
`assistantMessageIndex`.  Returns `none` when the guard fired. -/
def handleSendStart (st : ModalState) : ModalState × Option (String × Nat) :=
  let userInput := jsTrim st.inputValue
  if userInput = "" ∨ st.isLoading = true then (st, none)
  else
    let display1 := st.displayMessages ++ [⟨Role.user, userInput⟩]
    let assistantMessageIndex := display1.length
    ({ st with
        messages := st.messages ++ [⟨"user", userInput⟩]
        displayMessages := display1 ++ [⟨Role.assistant, ""⟩]
        inputValue := ""
        isLoading := true
        requestsIssued := st.requestsIssued + 1 },
      some (userInput, assistantMessageIndex))

/-- Apply a function to the element at an index of a list, if present. -/
def modifyAt : List α → Nat → (α → α) → List α
  | [], _, _ => []
  | x :: rest, 0, f => f x :: rest
  | x :: rest, i + 1, f => x :: modifyAt rest i f

/-- The effect of the sink registered by `handleSend`: each delivered
delta is appended to the content of the display entry at
`assistantMessageIndex`, in delivery order. -/
def applySink (display : List ChatMessage) (idx : Nat) (deltas : List String) :
    List ChatMessage :=
  deltas.foldl
    (fun d chunk => modifyAt d idx (fun m => { m with content := m.content ++ chunk }))
    display

/-- `l.splice(i, 2)`: remove two elements starting at index `i`. -/
def spliceTwo (l : List α) (i : Nat) : List α := l.take i ++ l.drop (i + 2)

/-- The completion of `InteractiveChatModal.handleSend` after the
streaming call settles: the sink effects are applied to the display view;
on success the finished `fullText` is pushed on the wire view; on failure
the just-added user and assistant display entries are spliced out, the
wire view pops the user entry, and the input surface is restored for
retry.  Either way the loading state ends. -/
def handleSendFinish (st : ModalState) (userInput : String)
    (assistantMessageIndex : Nat)
    (callResult : Except String StreamOutcome × List UsageRecord × List String) :
    ModalState :=
  let display := applySink st.displayMessages assistantMessageIndex callResult.2.2
  match callResult.1 with
  | Except.ok r =>
    { st with
        displayMessages := display
        messages := st.messages ++ [⟨"assistant", r.fullText⟩]
        isLoading := false }
  | Except.error _ =>
    { st with
        displayMessages := spliceTwo display (assistantMessageIndex - 1)
        messages := st.messages.dropLast
        inputValue := userInput
        isLoading := false }

/-- `InteractiveChatModal.handleSend` end to end, with the embedded
streaming client plugged in between the two phases. -/
def handleSend (parse : String → Option SSEvent) (model now : String)
    (st : ModalState) (t : Transport) : ModalState :=
  match handleSendStart st with
  | (st1, none) => st1
  | (st1, some (userInput, idx)) =>
    handleSendFinish st1 userInput idx
      (callOpenAIWithHistoryStreaming parse model now st1.messages t)

/-- One user interaction with the session: type `inp.1` into the input
surface and invoke `handleSend` against transport `inp.2`. -/
def stepModal (parse : String → Option SSEvent) (model now : String)
    (st : ModalState) (inp : String × Transport) : ModalState :=
  handleSend parse model now { st with inputValue := inp.1 } inp.2

/-- A well-formed single-shot response that carries a usage summary but no
extractable text: `output_text` is absent and the output list is absent,
so extraction fails with `'No response from ChatGPT'`. -/
def respUsageNoText : ApiResponse :=
  { error := none
    usage := some
      { prompt_tokens := some 5
        input_tokens := none
        completion_tokens := some 7
        output_tokens := none }
    output_text := none
    output := none }

/-- A single-shot response reporting a remote error. -/
def respRemoteError : ApiResponse :=
  { error := some { message := some "boom" }
    usage := none
    output_text := none
    output := none }

/-- A well-formed single-shot response with neither a usage summary nor
extractable text: extraction fails and nothing is recorded. -/
def respNoUsageNoText : ApiResponse :=
  { error := none
    usage := none
    output_text := none
    output := none }

/-- A concrete frame parser for witnesses: recognizes the single frame
body carrying the delta `" hi "` (with surrounding whitespace). -/
def demoParse : String → Option SSEvent :=
  fun s =>
    if s = "\x7b\"delta\": \" hi \"\x7d" then some { delta := some " hi ", usage := none }
    else none

/-- C7: `calculateCost` for `gpt-4o` at one million prompt and one million
completion tokens is exactly 12.50 USD, and any model identifier absent
from the price table is charged at the `gpt-4o` rates. -/
theorem calculateCost_gpt4o_and_fallback :
    calculateCost "gpt-4o" 1000000 1000000 = 12.50 ∧
    ∀ m : String, pricingTable.lookup m = none →
      ∀ p c : Nat, calculateCost m p c = calculateCost "gpt-4o" p c := by
  have h4o : pricingTable.lookup "gpt-4o" = some (2.50, 10.00) := by
    simp [pricingTable, List.lookup]
  constructor
  · simp [calculateCost, h4o]
    norm_num
  · intro m hm p c
    simp [calculateCost, hm, h4o]

/-- Witness for C7: the model identifier `claude` is not in the price
table, and is charged the `gpt-4o` rate at the claimed inputs. -/
theorem calculateCost_gpt4o_and_fallback_witness :
    pricingTable.lookup "claude" = none ∧
    calculateCost "claude" 1000000 1000000 = calculateCost "gpt-4o" 1000000 1000000 :=
  ⟨by simp [pricingTable, List.lookup],
    calculateCost_gpt4o_and_fallback.2 "claude" (by simp [pricingTable, List.lookup]) 1000000 1000000⟩

/-- C8: exported transcripts label the display view `[user A, assistant B,
user C, assistant D]` as `Q1`, `A1`, `Q2`, `A2`: the pair index is
`floor(position / 2) + 1`. -/
theorem exportTranscript_numbering :
    conversationText "CTX"
        [⟨Role.user, "A"⟩, ⟨Role.assistant, "B"⟩, ⟨Role.user, "C"⟩, ⟨Role.assistant, "D"⟩] =
      "\n\n---\n\n**Selected Context:**\nCTX\n\n**ChatGPT Conversation:**\n\n" ++
        "**==Q1:==** A\n\n" ++ "**==A1:==** B\n\n" ++ "**==Q2:==** C\n\n" ++ "**==A2:==** D\n\n" := by
  decide

theorem concatAll_append_single (l : List String) (d : String) :
    concatAll (l ++ [d]) = concatAll l ++ d := by
  induction l with
  | nil => simp [concatAll, String.append_empty, String.empty_append]
  | cons a rest ih => simp [concatAll, ih, String.append_assoc]

theorem concatAll_data (l : List String) :
    (concatAll l).data = (l.map String.data).flatten := by
  induction l with
  | nil => rfl
  | cons a rest ih => simp [concatAll, String.data_append, ih]

theorem splitNl_no_newline (l : List Char) (h : '\n' ∉ l) : splitNl l = ([], l) := by
  induction l with
  | nil => rfl
  | cons c rest ih =>
    have hc : c ≠ '\n' := fun hc => h (hc ▸ List.mem_cons_self c rest)
    have hr : '\n' ∉ rest := fun hm => h (List.mem_cons_of_mem c hm)
    simp [splitNl, ih hr, hc]

theorem splitNl_newline_split (buf rest : List Char) (h : '\n' ∉ buf) :
    splitNl (buf ++ '\n' :: rest) = (buf :: (splitNl rest).1, (splitNl rest).2) := by
  induction buf with
  | nil => simp [splitNl]
  | cons b buf ih =>
    have hb : b ≠ '\n' := fun hb => h (hb ▸ List.mem_cons_self b buf)
    have hbuf : '\n' ∉ buf := fun hm => h (List.mem_cons_of_mem b hm)
    simp [splitNl, ih hbuf, hb]

theorem chunkStep_eq_charFold (parse : String → Option SSEvent) :
    ∀ (chunk : List Char) (buf : List Char) (core : StreamCore), '\n' ∉ buf →
      chunkStep parse (buf, core) chunk = chunk.foldl (charStep parse) (buf, core) := by
  intro chunk
  induction chunk with
  | nil =>
    intro buf core h
    simp [chunkStep, splitNl_no_newline buf h]
  | cons c rest ih =>
    intro buf core h
    by_cases hc : c = '\n'
    · subst hc
      have e1 : chunkStep parse (buf, core) ('\n' :: rest) =
          chunkStep parse ([], processLine parse core buf) rest := by
        simp [chunkStep, splitNl_newline_split buf rest h]
      rw [e1, ih [] (processLine parse core buf) (by simp)]
      simp [charStep]
    · have e2 : buf ++ c :: rest = (buf ++ [c]) ++ rest := by simp
      have e1 : chunkStep parse (buf, core) (c :: rest) =
          chunkStep parse (buf ++ [c], core) rest := by
        simp only [chunkStep, e2]
      have hbc : '\n' ∉ buf ++ [c] := by
        intro hm
        rcases List.mem_append.mp hm with h1 | h1
        · exact h h1
        · simp at h1
          exact hc h1.symm
      rw [e1, ih (buf ++ [c]) core hbc]
      simp [charStep, hc]

theorem charFold_buffer (parse : String → Option SSEvent) :
    ∀ (cs : List Char) (buf : List Char) (core : StreamCore), '\n' ∉ buf →
      '\n' ∉ (cs.foldl (charStep parse) (buf, core)).1 := by
  intro cs
  induction cs with
  | nil => intro buf core h; exact h
  | cons c rest ih =>
    intro buf core h
    rw [List.foldl_cons]
    by_cases hc : c = '\n'
    · subst hc
      simp only [charStep, if_pos rfl]
      exact ih [] _ (by simp)
    · simp only [charStep, if_neg hc]
      have hbc : '\n' ∉ buf ++ [c] := by
        intro hm
        rcases List.mem_append.mp hm with h1 | h1
        · exact h h1
        · simp at h1
          exact hc h1.symm
      exact ih (buf ++ [c]) core hbc

theorem chunksFold_eq_charFold (parse : String → Option SSEvent) :
    ∀ (chunks : List String) (buf : List Char) (core : StreamCore), '\n' ∉ buf →
      chunks.foldl (fun s c => chunkStep parse s c.data) (buf, core) =
        ((chunks.map String.data).flatten).foldl (charStep parse) (buf, core) := by
  intro chunks
  induction chunks with
  | nil => intro buf core h; rfl
  | cons c rest ih =>
    intro buf core h
    rw [List.foldl_cons, List.map_cons, List.flatten_cons, List.foldl_append]
    rw [show chunkStep parse (buf, core) c.data = c.data.foldl (charStep parse) (buf, core)
      from chunkStep_eq_charFold parse c.data buf core h]
    have hb2 := charFold_buffer parse c.data buf core h
    rcases hfold : c.data.foldl (charStep parse) (buf, core) with ⟨b2, c2⟩
    rw [hfold] at hb2
    exact ih b2 c2 hb2

theorem processLine_concat (parse : String → Option SSEvent) (core : StreamCore)
    (line : List Char) (h : core.fullText = concatAll core.deltas) :
    (processLine parse core line).fullText = concatAll (processLine parse core line).deltas := by
  simp only [processLine]
  split
  · exact h
  split
  · exact h
  split
  · exact h
  split
  · exact h
  next ev heq =>
    rcases ev with ⟨d, u⟩
    cases d with
    | none => cases u <;> simpa using h
    | some dv =>
      cases u <;> simp [concatAll_append_single, h]

theorem charFold_concat (parse : String → Option SSEvent) :
    ∀ (cs : List Char) (buf : List Char) (core : StreamCore),
      core.fullText = concatAll core.deltas →
      ((cs.foldl (charStep parse) (buf, core)).2).fullText =
        concatAll ((cs.foldl (charStep parse) (buf, core)).2).deltas := by
  intro cs
  induction cs with
  | nil => intro buf core h; exact h
  | cons c rest ih =>
    intro buf core h
    rw [List.foldl_cons]
    by_cases hc : c = '\n'
    · subst hc
      simp only [charStep, if_pos rfl]
      exact ih [] _ (processLine_concat parse core buf h)
    · simp only [charStep, if_neg hc]
      exact ih (buf ++ [c]) core h

theorem processChunks_fullText (parse : String → Option SSEvent) (chunks : List String) :
    (processChunks parse chunks).fullText = concatAll (processChunks parse chunks).deltas := by
  unfold processChunks
  rw [chunksFold_eq_charFold parse chunks [] initCore (by simp)]
  exact charFold_concat parse _ [] initCore rfl

theorem modifyAt_append_len (l : List α) (x : α) (f : α → α) :
    modifyAt (l ++ [x]) l.length f = l ++ [f x] := by
  induction l with
  | nil => rfl
  | cons a rest ih => simp [modifyAt, ih]

theorem applySink_append_len (deltas : List String) :
    ∀ (l : List ChatMessage) (x : ChatMessage),
      applySink (l ++ [x]) l.length deltas =
        l ++ [{ x with content := x.content ++ concatAll deltas }] := by
  induction deltas with
  | nil =>
    intro l x
    cases x with
    | mk r c => simp [applySink, concatAll, String.append_empty]
  | cons d rest ih =>
    intro l x
    simp only [applySink, List.foldl_cons]
    rw [modifyAt_append_len]
    have hrec := ih l { x with content := x.content ++ d }
    simp only [applySink] at hrec
    rw [hrec]
    simp [concatAll, String.append_assoc]

theorem spliceTwo_append_two (l : List α) (x y : α) :
    spliceTwo (l ++ [x, y]) l.length = l := by
  have h1 : (l ++ [x, y]).take l.length = l := by
    simp
  have h2 : (l ++ [x, y]).drop (l.length + 2) = [] := by
    apply List.drop_eq_nil_of_le
    simp
  simp [spliceTwo, h1, h2]

theorem spliceTwo_append_pair (l : List α) (x y : α) :
    spliceTwo ((l ++ [x]) ++ [y]) ((l ++ [x]).length - 1) = l := by
  have hlen : (l ++ [x]).length - 1 = l.length := by simp
  rw [hlen, List.append_assoc]
  exact spliceTwo_append_two l x y

theorem handleSendStart_guard (st : ModalState)
    (h : jsTrim st.inputValue = "" ∨ st.isLoading = true) :
    handleSendStart st = (st, none) := by
  simp only [handleSendStart]
  rw [if_pos h]

theorem handleSend_noop (parse : String → Option SSEvent) (model now : String)
    (st : ModalState) (t : Transport)
    (h : jsTrim st.inputValue = "" ∨ st.isLoading = true) :
    handleSend parse model now st t = st := by
  simp only [handleSend, handleSendStart_guard st h]

theorem handleSendStart_run (st : ModalState)
    (h1 : jsTrim st.inputValue ≠ "") (h2 : st.isLoading = false) :
    handleSendStart st =
      ({ st with
          messages := st.messages ++ [⟨"user", jsTrim st.inputValue⟩]
          displayMessages := (st.displayMessages ++ [⟨Role.user, jsTrim st.inputValue⟩]) ++
            [⟨Role.assistant, ""⟩]
          inputValue := ""
          isLoading := true
          requestsIssued := st.requestsIssued + 1 },
        some (jsTrim st.inputValue,
          (st.displayMessages ++ [ChatMessage.mk Role.user (jsTrim st.inputValue)]).length)) := by
  have hg : ¬ (jsTrim st.inputValue = "" ∨ st.isLoading = true) := by
    simp [h1, h2]
  simp only [handleSendStart]
  rw [if_neg hg]

theorem handleSend_success_eq (parse : String → Option SSEvent) (model now : String)
    (st : ModalState) (chunks : List String)
    (h1 : jsTrim st.inputValue ≠ "") (h2 : st.isLoading = false) :
    handleSend parse model now st (Transport.stream chunks none) =
      { st with
          messages := st.messages ++
            [⟨"user", jsTrim st.inputValue⟩,
             ⟨"assistant", (processChunks parse chunks).fullText⟩]
          displayMessages := st.displayMessages ++
            [⟨Role.user, jsTrim st.inputValue⟩,
             ⟨Role.assistant, concatAll (processChunks parse chunks).deltas⟩]
          inputValue := ""
          isLoading := false
          requestsIssued := st.requestsIssued + 1 } := by
  simp only [handleSend, handleSendStart_run st h1 h2]
  simp only [callOpenAIWithHistoryStreaming, handleSendFinish]
  rw [applySink_append_len]
  simp [String.empty_append, List.append_assoc]

theorem handleSend_failure_eq (parse : String → Option SSEvent) (model now : String)
    (st : ModalState) (t : Transport)
    (hf : streamSucceeds t = false) (h1 : jsTrim st.inputValue ≠ "") (h2 : st.isLoading = false) :
    handleSend parse model now st t =
      { st with
          inputValue := jsTrim st.inputValue
          isLoading := false
          requestsIssued := st.requestsIssued + 1 } := by
  cases t with
  | httpError msg =>
    simp only [handleSend, handleSendStart_run st h1 h2]
    simp only [callOpenAIWithHistoryStreaming, handleSendFinish]
    simp only [applySink, List.foldl_nil]
    rw [spliceTwo_append_pair]
    simp [List.dropLast_concat]
  | stream chunks readError =>
    cases readError with
    | none => simp [streamSucceeds] at hf
    | some e =>
      simp only [handleSend, handleSendStart_run st h1 h2]
      simp only [callOpenAIWithHistoryStreaming, handleSendFinish]
      rw [applySink_append_len]
      rw [spliceTwo_append_pair]
      simp [List.dropLast_concat]

theorem stepModal_fail_views (parse : String → Option SSEvent) (model now : String)
    (st : ModalState) (u : String) (t : Transport) (hf : streamSucceeds t = false) :
    (stepModal parse model now st (u, t)).displayMessages = st.displayMessages ∧
    (stepModal parse model now st (u, t)).messages = st.messages := by
  unfold stepModal
  by_cases hg : jsTrim u = "" ∨ st.isLoading = true
  · rw [handleSend_noop parse model now { st with inputValue := u } t hg]
    exact ⟨rfl, rfl⟩
  · push_neg at hg
    obtain ⟨hne, hload⟩ := hg
    have hload2 : st.isLoading = false := by
      cases hb : st.isLoading
      · rfl
      · exact absurd hb hload
    rw [handleSend_failure_eq parse model now { st with inputValue := u } t hf hne hload2]
    exact ⟨rfl, rfl⟩

theorem stepModal_preserves_alignment (parse : String → Option SSEvent)
    (model now systemPrompt selectedText : String) (st : ModalState)
    (h : st.messages =
      (mkModal systemPrompt selectedText).messages ++ st.displayMessages.map chatToWire)
    (i : String × Transport) :
    (stepModal parse model now st i).messages =
      (mkModal systemPrompt selectedText).messages ++
        (stepModal parse model now st i).displayMessages.map chatToWire := by
  obtain ⟨u, t⟩ := i
  unfold stepModal
  by_cases hg : jsTrim u = "" ∨ st.isLoading = true
  · rw [handleSend_noop parse model now { st with inputValue := u } t hg]
    exact h
  · push_neg at hg
    obtain ⟨hne, hload⟩ := hg
    have hload2 : st.isLoading = false := by
      cases hb : st.isLoading
      · rfl
      · exact absurd hb hload
    cases t with
    | httpError msg =>
      rw [handleSend_failure_eq parse model now { st with inputValue := u }
        (Transport.httpError msg) rfl hne hload2]
      exact h
    | stream chunks readError =>
      cases readError with
      | some e =>
        rw [handleSend_failure_eq parse model now { st with inputValue := u }
          (Transport.stream chunks (some e)) rfl hne hload2]
        exact h
      | none =>
        rw [handleSend_success_eq parse model now { st with inputValue := u } chunks hne hload2]
        rw [processChunks_fullText]
        simp [h, chatToWire, roleToString, List.append_assoc]

theorem foldl_alignment (parse : String → Option SSEvent)
    (model now systemPrompt selectedText : String) :
    ∀ (trace : List (String × Transport)) (st : ModalState),
      st.messages =
        (mkModal systemPrompt selectedText).messages ++ st.displayMessages.map chatToWire →
      (trace.foldl (stepModal parse model now) st).messages =
        (mkModal systemPrompt selectedText).messages ++
          (trace.foldl (stepModal parse model now) st).displayMessages.map chatToWire := by
  intro trace
  induction trace with
  | nil => intro st h; exact h
  | cons i rest ih =>
    intro st h
    rw [List.foldl_cons]
    exact ih (stepModal parse model now st i)
      (stepModal_preserves_alignment parse model now systemPrompt selectedText st h i)

/-- C1 counterexample: in single-shot mode a well-formed response that
carries a usage summary but no extractable text makes
`callOpenAIWithHistory` fail with `'No response from ChatGPT'` and
nonetheless leaves one Usage Record behind, because the source records
usage before extracting the answer text. -/
theorem singleShot_empty_response_records_usage :
    (callOpenAIWithHistory "gpt-4o" "t0" respUsageNoText).1 =
      Except.error "No response from ChatGPT" ∧
    (callOpenAIWithHistory "gpt-4o" "t0" respUsageNoText).2 =
      [recordUsage "gpt-4o" "t0" 5 7] :=
  ⟨rfl, rfl⟩

/-- C1 (amended): when a call of the completion client fails (throws), no
Usage Record is recorded — a failed streaming call (non-ok HTTP status or
mid-stream read error) records nothing, and so does a single-shot call
that fails, whether with a remote-reported error or with
`'No response from ChatGPT'` on a response carrying no usage summary —
with one exception: in single-shot mode, a well-formed response that
carries a usage summary but no extractable text appends one Usage Record
before the `'No response from ChatGPT'` failure is thrown.  The four
clauses cover every failure mode of the two embedded clients. -/
theorem usage_records_amended (parse : String → Option SSEvent) (model now : String)
    (messages : List WireMessage) (t : Transport) (resp : ApiResponse) :
    (streamSucceeds t = false →
      (callOpenAIWithHistoryStreaming parse model now messages t).2.1 = []) ∧
    (∀ e, resp.error = some e → (callOpenAIWithHistory model now resp).2 = []) ∧
    (resp.error = none → resp.usage = none → extractAnswer resp = none →
      (callOpenAIWithHistory model now resp).1 = Except.error "No response from ChatGPT" ∧
      (callOpenAIWithHistory model now resp).2 = []) ∧
    (∀ u, resp.error = none → resp.usage = some u → extractAnswer resp = none →
      (callOpenAIWithHistory model now resp).1 = Except.error "No response from ChatGPT" ∧
      (callOpenAIWithHistory model now resp).2 =
        [recordUsage model now (tokensOf u.prompt_tokens u.input_tokens)
          (tokensOf u.completion_tokens u.output_tokens)]) := by
  refine ⟨?_, ?_, ?_, ?_⟩
  · intro hf
    cases t with
    | httpError msg => simp [callOpenAIWithHistoryStreaming]
    | stream chunks readError =>
      cases readError with
      | none => simp [streamSucceeds] at hf
      | some e => simp [callOpenAIWithHistoryStreaming]
  · intro e he
    simp [callOpenAIWithHistory, he]
  · intro he hu hx
    simp [callOpenAIWithHistory, he, hu, hx]
  · intro u he hu hx
    simp [callOpenAIWithHistory, he, hu, hx]

/-- Witness for the amended C1: each clause discharged at a concrete
input (failed HTTP transport; remote-error response; usage-free
no-text response; usage-carrying no-text response). -/
theorem usage_records_amended_witness :
    ((callOpenAIWithHistoryStreaming (fun _ => none) "gpt-4o" "t0" []
        (Transport.httpError none)).2.1 = []) ∧
    ((callOpenAIWithHistory "gpt-4o" "t0" respRemoteError).2 = []) ∧
    ((callOpenAIWithHistory "gpt-4o" "t0" respNoUsageNoText).1 =
        Except.error "No response from ChatGPT" ∧
      (callOpenAIWithHistory "gpt-4o" "t0" respNoUsageNoText).2 = []) ∧
    ((callOpenAIWithHistory "gpt-4o" "t0" respUsageNoText).1 =
        Except.error "No response from ChatGPT" ∧
      (callOpenAIWithHistory "gpt-4o" "t0" respUsageNoText).2 =
        [recordUsage "gpt-4o" "t0" (tokensOf (some 5) none) (tokensOf (some 7) none)]) :=
  ⟨(usage_records_amended (fun _ => none) "gpt-4o" "t0" [] (Transport.httpError none)
      respRemoteError).1 rfl,
   (usage_records_amended (fun _ => none) "gpt-4o" "t0" [] (Transport.httpError none)
      respRemoteError).2.1 { message := some "boom" } rfl,
   (usage_records_amended (fun _ => none) "gpt-4o" "t0" [] (Transport.httpError none)
      respNoUsageNoText).2.2.1 rfl rfl rfl,
   (usage_records_amended (fun _ => none) "gpt-4o" "t0" [] (Transport.httpError none)
      respUsageNoText).2.2.2
     { prompt_tokens := some 5
       input_tokens := none
       completion_tokens := some 7
       output_tokens := none } rfl rfl rfl⟩

/-- C2: from any session state that is not loading and has a non-blank
input, `handleSend` leaves the wire view exactly two entries longer on a
successful streamed turn — one user entry followed by one assistant
entry — and of identical length when the streaming call fails. -/
theorem submitTurn_wire_growth (parse : String → Option SSEvent) (model now : String)
    (st : ModalState) (t : Transport)
    (_h0 : st.messages ≠ []) (h1 : jsTrim st.inputValue ≠ "") (h2 : st.isLoading = false) :
    (streamSucceeds t = true →
      (handleSend parse model now st t).messages.length = st.messages.length + 2 ∧
      ∃ a, (handleSend parse model now st t).messages =
        st.messages ++ [⟨"user", jsTrim st.inputValue⟩, ⟨"assistant", a⟩]) ∧
    (streamSucceeds t = false →
      (handleSend parse model now st t).messages.length = st.messages.length) := by
  constructor
  · intro hs
    cases t with
    | httpError msg => simp [streamSucceeds] at hs
    | stream chunks readError =>
      cases readError with
      | some e => simp [streamSucceeds] at hs
      | none =>
        rw [handleSend_success_eq parse model now st chunks h1 h2]
        refine ⟨by simp, (processChunks parse chunks).fullText, rfl⟩
  · intro hf
    rw [handleSend_failure_eq parse model now st t hf h1 h2]

/-- Witness for C2, at a fresh session with input `"hi"` and an empty
successful stream. -/
theorem submitTurn_wire_growth_witness :
    ({ mkModal "sys" "ctx" with inputValue := "hi" } : ModalState).messages ≠ [] ∧
    jsTrim ({ mkModal "sys" "ctx" with inputValue := "hi" } : ModalState).inputValue ≠ "" ∧
    ({ mkModal "sys" "ctx" with inputValue := "hi" } : ModalState).isLoading = false ∧
    ((streamSucceeds (Transport.stream [] none) = true →
      (handleSend (fun _ => none) "m" "n" { mkModal "sys" "ctx" with inputValue := "hi" }
          (Transport.stream [] none)).messages.length =
        ({ mkModal "sys" "ctx" with inputValue := "hi" } : ModalState).messages.length + 2 ∧
      ∃ a, (handleSend (fun _ => none) "m" "n"
          { mkModal "sys" "ctx" with inputValue := "hi" }
          (Transport.stream [] none)).messages =
        ({ mkModal "sys" "ctx" with inputValue := "hi" } : ModalState).messages ++
          [⟨"user", jsTrim ({ mkModal "sys" "ctx" with inputValue := "hi" } :
              ModalState).inputValue⟩,
           ⟨"assistant", a⟩]) ∧
    (streamSucceeds (Transport.stream [] none) = false →
      (handleSend (fun _ => none) "m" "n" { mkModal "sys" "ctx" with inputValue := "hi" }
          (Transport.stream [] none)).messages.length =
        ({ mkModal "sys" "ctx" with inputValue := "hi" } : ModalState).messages.length)) :=
  ⟨by decide, by decide, rfl,
    submitTurn_wire_growth (fun _ => none) "m" "n"
      { mkModal "sys" "ctx" with inputValue := "hi" } (Transport.stream [] none)
      (by decide) (by decide) rfl⟩

/-- C3: after any sequence of user interactions, the wire view equals the
two seeded system messages followed by the wire image of the display
view (so `display[i]` corresponds to `wire[i + 2]`), the display view
carries only user/assistant roles, and a failed turn leaves both views
exactly as they were (the just-added user entry is removed from both). -/
theorem display_wire_alignment (parse : String → Option SSEvent)
    (model now systemPrompt selectedText : String)
    (trace : List (String × Transport)) :
    (mkModal systemPrompt selectedText).messages.length = 2 ∧
    (trace.foldl (stepModal parse model now) (mkModal systemPrompt selectedText)).messages =
      (mkModal systemPrompt selectedText).messages ++
        (trace.foldl (stepModal parse model now)
          (mkModal systemPrompt selectedText)).displayMessages.map chatToWire ∧
    (∀ m ∈ (trace.foldl (stepModal parse model now)
        (mkModal systemPrompt selectedText)).displayMessages,
      m.role = Role.user ∨ m.role = Role.assistant) ∧
    (∀ (st : ModalState) (u : String) (t : Transport), streamSucceeds t = false →
      (stepModal parse model now st (u, t)).displayMessages = st.displayMessages ∧
      (stepModal parse model now st (u, t)).messages = st.messages) := by
  refine ⟨rfl, ?_, ?_, ?_⟩
  · exact foldl_alignment parse model now systemPrompt selectedText trace
      (mkModal systemPrompt selectedText) (by simp [mkModal])
  · intro m _
    cases m.role
    · exact Or.inl rfl
    · exact Or.inr rfl
  · intro st u t hf
    exact stepModal_fail_views parse model now st u t hf

/-- Witness for C3: a failing turn on a fresh session leaves both views
unchanged. -/
theorem display_wire_alignment_witness :
    streamSucceeds (Transport.httpError none) = false ∧
    (stepModal (fun _ => none) "m" "n" (mkModal "sys" "ctx")
        ("hi", Transport.httpError none)).displayMessages =
      (mkModal "sys" "ctx").displayMessages ∧
    (stepModal (fun _ => none) "m" "n" (mkModal "sys" "ctx")
        ("hi", Transport.httpError none)).messages = (mkModal "sys" "ctx").messages :=
  ⟨rfl,
    ((display_wire_alignment (fun _ => none) "m" "n" "sys" "ctx" []).2.2.2
      (mkModal "sys" "ctx") "hi" (Transport.httpError none) rfl).1,
    ((display_wire_alignment (fun _ => none) "m" "n" "sys" "ctx" []).2.2.2
      (mkModal "sys" "ctx") "hi" (Transport.httpError none) rfl).2⟩

/-- C4: a `handleSend` invocation made while a turn is already in flight
(`isLoading = true`) is a no-op: the guard returns before issuing a
request, and the whole state — both transcript views, the input surface
and the request counter — is unchanged. -/
theorem second_submitTurn_noop (parse : String → Option SSEvent) (model now : String)
    (st : ModalState) (t : Transport) (h : st.isLoading = true) :
    handleSendStart st = (st, none) ∧ handleSend parse model now st t = st :=
  ⟨handleSendStart_guard st (Or.inr h), handleSend_noop parse model now st t (Or.inr h)⟩

/-- Witness for C4, on a loading session. -/
theorem second_submitTurn_noop_witness :
    ({ mkModal "sys" "ctx" with isLoading := true } : ModalState).isLoading = true ∧
    handleSendStart { mkModal "sys" "ctx" with isLoading := true } =
      ({ mkModal "sys" "ctx" with isLoading := true }, none) ∧
    handleSend (fun _ => none) "m" "n" { mkModal "sys" "ctx" with isLoading := true }
        (Transport.stream [] none) =
      { mkModal "sys" "ctx" with isLoading := true } :=
  ⟨rfl,
    second_submitTurn_noop (fun _ => none) "m" "n"
      { mkModal "sys" "ctx" with isLoading := true } (Transport.stream [] none) rfl⟩

/-- C5: on a successfully streamed turn, the assistant entry appended to
the wire view carries exactly the concatenation, in delivery order, of
the deltas handed to the caller-supplied sink (the third component of the
client result). -/
theorem stream_deltas_concat_eq_wire (parse : String → Option SSEvent) (model now : String)
    (st : ModalState) (chunks : List String)
    (h1 : jsTrim st.inputValue ≠ "") (h2 : st.isLoading = false) :
    (handleSend parse model now st (Transport.stream chunks none)).messages =
      st.messages ++
        [⟨"user", jsTrim st.inputValue⟩,
         ⟨"assistant",
           concatAll (callOpenAIWithHistoryStreaming parse model now
             (handleSendStart st).1.messages (Transport.stream chunks none)).2.2⟩] := by
  rw [handleSend_success_eq parse model now st chunks h1 h2]
  have hd : (callOpenAIWithHistoryStreaming parse model now
      (handleSendStart st).1.messages (Transport.stream chunks none)).2.2 =
      (processChunks parse chunks).deltas := by
    simp [callOpenAIWithHistoryStreaming]
  rw [hd, ← processChunks_fullText]

/-- Witness for C5, at a fresh session with input `"hi"` and one chunk
recognized by `demoParse`. -/
theorem stream_deltas_concat_eq_wire_witness :
    jsTrim ({ mkModal "sys" "ctx" with inputValue := "hi" } : ModalState).inputValue ≠ "" ∧
    ({ mkModal "sys" "ctx" with inputValue := "hi" } : ModalState).isLoading = false ∧
    (handleSend demoParse "m" "n" { mkModal "sys" "ctx" with inputValue := "hi" }
        (Transport.stream ["data: \x7b\"delta\": \" hi \"\x7d\n"] none)).messages =
      ({ mkModal "sys" "ctx" with inputValue := "hi" } : ModalState).messages ++
        [⟨"user", jsTrim ({ mkModal "sys" "ctx" with inputValue := "hi" } :
            ModalState).inputValue⟩,
         ⟨"assistant",
           concatAll (callOpenAIWithHistoryStreaming demoParse "m" "n"
             (handleSendStart { mkModal "sys" "ctx" with inputValue := "hi" }).1.messages
             (Transport.stream ["data: \x7b\"delta\": \" hi \"\x7d\n"] none)).2.2⟩] :=
  ⟨by decide, rfl,
    stream_deltas_concat_eq_wire demoParse "m" "n"
      { mkModal "sys" "ctx" with inputValue := "hi" }
      ["data: \x7b\"delta\": \" hi \"\x7d\n"] (by decide) rfl⟩

/-- C6: the streaming loop is invariant under re-chunking of the
transport byte sequence: any split into chunks produces exactly the
accumulator (same delivered deltas in the same order, same full text,
same captured usage) as delivering the whole sequence in one chunk — so
a data frame cut at an arbitrary boundary between two chunks is buffered,
combined and delivered exactly once, never dropped and never
duplicated. -/
theorem stream_chunking_invariant (parse : String → Option SSEvent) (chunks : List String) :
    processChunks parse chunks = processChunks parse [concatAll chunks] := by
  unfold processChunks
  rw [chunksFold_eq_charFold parse chunks [] initCore (by simp),
    chunksFold_eq_charFold parse [concatAll chunks] [] initCore (by simp)]
  simp [concatAll_data]

/-- C9: when a successful stream ends without having delivered a usage
event, the client records exactly one Usage Record, with the prompt and
completion token counts approximated as the ceiling of the serialized
input length and of the output length divided by four. -/
theorem stream_usage_estimate_fallback (parse : String → Option SSEvent) (model now : String)
    (messages : List WireMessage) (chunks : List String)
    (h : (processChunks parse chunks).usageData = none) :
    (callOpenAIWithHistoryStreaming parse model now messages
        (Transport.stream chunks none)).2.1 =
      [recordUsage model now (((jsonStringifyMessages messages).length + 3) / 4)
        (((processChunks parse chunks).fullText.length + 3) / 4)] := by
  simp [callOpenAIWithHistoryStreaming, h]

/-- Witness for C9: an empty stream delivers no usage event, and the
estimate record is the only one. -/
theorem stream_usage_estimate_fallback_witness :
    (processChunks (fun _ => none) []).usageData = none ∧
    (callOpenAIWithHistoryStreaming (fun _ => none) "gpt-4o" "t0"
        [⟨"user", "hi"⟩] (Transport.stream [] none)).2.1 =
      [recordUsage "gpt-4o" "t0"
        (((jsonStringifyMessages [⟨"user", "hi"⟩]).length + 3) / 4)
        (((processChunks (fun _ => none) []).fullText.length + 3) / 4)] :=
  ⟨rfl,
    stream_usage_estimate_fallback (fun _ => none) "gpt-4o" "t0" [⟨"user", "hi"⟩] [] rfl⟩

/-- C10: for the same underlying answer text `" hi "`, single-shot
extraction returns it trimmed (`"hi"`) while the streaming accumulator
returns it untrimmed (`" hi "`), so the assistant content the session
stores differs between the two modes. -/
theorem trim_divergence_between_modes :
    (callOpenAIWithHistory "gpt-4o" "t0"
        { error := none, usage := none, output_text := some " hi ", output := none }).1 =
      Except.ok "hi" ∧
    (callOpenAIWithHistoryStreaming demoParse "gpt-4o" "t0" []
        (Transport.stream ["data: \x7b\"delta\": \" hi \"\x7d\n"] none)).1 =
      Except.ok { fullText := " hi ", usage := none } ∧
    (" hi " : String) ≠ "hi" := by
  refine ⟨rfl, rfl, by decide⟩
